import Mathlib

/-!
Verification of the credentialing backend (`backend/`): a shallow embedding of
the LLM batching layer (`utils/llm_async/llm.py`, `utils/llm_async/bedrock_llm.py`,
`utils/llm_async/unified_llm.py`) and of the credentialing orchestrator
(`services/credentialing_service.py`, `models/credentialing_result.py`).

Modelling conventions:
- Python strings are `String` / `List Char`; `s.lower().strip()` is `pyLowerStrip`,
  and Python's substring test `needle in hay` is `containsSub`.
- Python floats are embedded as `ℚ` (all arithmetic in the claims is exact at
  this granularity); Python's banker-rounding `round` is `pyRound`.
- Python dicts keyed by strings are association lists in insertion order; a
  lookup is `List.find?` on the key.
- A Python function that may raise is embedded as an `Except String` value;
  a `try/except` is a `match` on that value.
- `asyncio` concurrency is embedded by making the completion order of a
  `gather` explicit: `gather tasks sched` runs the (pure) tasks, lets them
  complete in the order `sched`, and reassembles results into launch order,
  which is the documented `asyncio.gather` contract.
-/

/-! ## String helpers (Python `str.lower`, `str.strip`, `in`) -/

/-- Python whitespace for `str.strip` (space, tab, newline, carriage return,
vertical tab, form feed). -/
def isPyWS (c : Char) : Bool :=
  c == ' ' || c == '\t' || c == '\n' || c == '\r' || c == Char.ofNat 11 || c == Char.ofNat 12

/-- Python `str.strip`: drop whitespace from both ends. -/
def stripWS (l : List Char) : List Char :=
  ((l.dropWhile isPyWS).reverse.dropWhile isPyWS).reverse

/-- Python `s.lower().strip()` (ASCII case folding, as in the repo's data). -/
def pyLowerStrip (s : String) : List Char :=
  stripWS (s.data.map Char.toLower)

/-- Does `hay` start with `needle`? -/
def isSubAt : List Char → List Char → Bool
  | [], _ => true
  | _ :: _, [] => false
  | a :: as, b :: bs => a == b && isSubAt as bs

/-- Python substring test `needle in hay`. -/
def containsSub (needle : List Char) : List Char → Bool
  | [] => isSubAt needle []
  | hay@(_ :: rest) => isSubAt needle hay || containsSub needle rest

/-! ## Pricing table (`utils/llm_async/llm.py`, `LLM_PRICING` / `get_model_pricing`) -/

/-- The static pricing dict, in Python insertion order (dict iteration order);
the float literals of the source are written as exact fractions (0.002 is
2 / 1000, and so on). -/
def LLM_PRICING : List (String × ℚ × ℚ) :=
  [ ("gpt-4.1", 2 / 1000, 8 / 1000),
    ("gpt-4", 3 / 100, 6 / 100),
    ("gpt-4-turbo", 1 / 100, 3 / 100),
    ("gpt-4-turbo-preview", 1 / 100, 3 / 100),
    ("gpt-4o", 5 / 1000, 15 / 1000),
    ("gpt-4o-mini", 15 / 100000, 6 / 10000),
    ("gpt-3.5-turbo", 15 / 10000, 2 / 1000),
    ("gpt-3.5-turbo-16k", 3 / 1000, 4 / 1000),
    ("anthropic.claude-3-sonnet-20240229-v1:0", 3 / 1000, 15 / 1000),
    ("anthropic.claude-3-haiku-20240307-v1:0", 25 / 100000, 125 / 100000),
    ("anthropic.claude-3-opus-20240229-v1:0", 15 / 1000, 75 / 1000),
    ("anthropic.claude-3-5-sonnet-20240620-v1:0", 3 / 1000, 15 / 1000),
    ("anthropic.claude-v2", 8 / 1000, 24 / 1000),
    ("anthropic.claude-v2:1", 8 / 1000, 24 / 1000),
    ("anthropic.claude-instant-v1", 8 / 10000, 24 / 10000),
    ("amazon.titan-text-lite-v1", 3 / 10000, 4 / 10000),
    ("amazon.titan-text-express-v1", 8 / 10000, 16 / 10000),
    ("default", 3 / 1000, 15 / 1000) ]

/-- Indexing `LLM_PRICING[key]` for a key that is present (all uses in
`get_model_pricing` index existing keys; the `getD` default is never hit). -/
def tableRate (k : String) : ℚ × ℚ :=
  ((LLM_PRICING.find? (fun e => e.1 == k)).map (fun e => e.2)).getD (3 / 1000, 15 / 1000)

/-- Embedding of `get_model_pricing`: exact dict lookup, then the substring
loop over the dict in insertion order (skipping the "default" key), then the
family heuristics, then the default rate. -/
def get_model_pricing (model_name : String) : ℚ × ℚ :=
  let m := pyLowerStrip model_name
  match LLM_PRICING.find? (fun e => e.1.data == m) with
  | some e => e.2
  | none =>
    match LLM_PRICING.find? (fun e => decide (e.1 ≠ "default") && containsSub e.1.data m) with
    | some e => e.2
    | none =>
      if containsSub "gpt-4".data m then
        if containsSub "turbo".data m || containsSub "preview".data m then
          tableRate "gpt-4-turbo"
        else if containsSub "mini".data m then tableRate "gpt-4o-mini"
        else tableRate "gpt-4"
      else if containsSub "gpt-3.5".data m then
        if containsSub "16k".data m then tableRate "gpt-3.5-turbo-16k"
        else tableRate "gpt-3.5-turbo"
      else if containsSub "claude-3-5".data m then
        tableRate "anthropic.claude-3-5-sonnet-20240620-v1:0"
      else if containsSub "claude-3".data m then
        if containsSub "opus".data m then tableRate "anthropic.claude-3-opus-20240229-v1:0"
        else if containsSub "haiku".data m then tableRate "anthropic.claude-3-haiku-20240307-v1:0"
        else tableRate "anthropic.claude-3-sonnet-20240229-v1:0"
      else if containsSub "claude".data m then
        if containsSub "instant".data m then tableRate "anthropic.claude-instant-v1"
        else tableRate "anthropic.claude-v2"
      else if containsSub "titan".data m then
        if containsSub "express".data m then tableRate "amazon.titan-text-express-v1"
        else tableRate "amazon.titan-text-lite-v1"
      else tableRate "default"

/-! ## Provider data and regulations (`services/credentialing_service.py`) -/

/-- A leaf value inside one section of provider data, typed by how the
validator reads it (`.get(k, [])` on list fields, `.get(k, "")` on string
fields). -/
inductive FieldValue where
  | s (v : String)
  | l (v : List String)
  | n (v : ℚ)
deriving DecidableEq

/-- One section of provider data, e.g. `provider_data["Disclosure"]`:
a string-keyed dict. -/
structure SectionData where
  entries : List (String × FieldValue)
deriving DecidableEq

/-- Python `section.get(k, default)` for a list-valued field. -/
def SectionData.getListD (d : SectionData) (k : String) (dflt : List String) : List String :=
  match d.entries.find? (fun e => e.1 == k) with
  | some (_, FieldValue.l v) => v
  | _ => dflt

/-- Python `section.get(k, default)` for a string-valued field. -/
def SectionData.getStrD (d : SectionData) (k : String) (dflt : String) : String :=
  match d.entries.find? (fun e => e.1 == k) with
  | some (_, FieldValue.s v) => v
  | _ => dflt

/-- A string-keyed dict of data sections (`provider_data`, `relevant_data`). -/
abbrev DataMap := List (String × SectionData)

/-- Python `key in data` / `data[key]` on a `DataMap`. -/
def dataLookup (m : DataMap) (k : String) : Option SectionData :=
  (m.find? (fun e => e.1 == k)).map (fun e => e.2)

/-- Which criterion keys are present in a regulation's `validation_criteria`
dict (`_validate_hard_regulation` only tests key presence). -/
structure ValidationCriteria where
  license_status : Bool
  disciplinary_actions : Bool
  malpractice_insurance : Bool
  board_certification : Bool
  criminal_record : Bool
deriving DecidableEq

/-- A hard regulation as loaded from `data/regulations.json`: id, name,
`data_fields`, and its `validation_criteria`. -/
structure Regulation where
  id : String
  name : String
  data_fields : List String
  validation_criteria : ValidationCriteria
deriving DecidableEq

/-- Embedding of `_validate_hard_regulation`: a chain of sequential `if`
blocks, each of which either returns early or falls through; final
`return True`. -/
def validateHardRegulation (c : ValidationCriteria) (data : DataMap) : Bool :=
  if c.license_status && (dataLookup data "ProfessionalIds").isSome then
    true
  else if c.disciplinary_actions &&
      (match dataLookup data "Disclosure" with
       | some d => decide (0 < (d.getListD "disciplinary_actions" []).length)
       | none => false) then
    false
  else if c.malpractice_insurance &&
      (match dataLookup data "PLIs" with
       | some d => d.getStrD "malpractice_insurance" "" != "Active"
       | none => false) then
    false
  else if c.board_certification &&
      (match dataLookup data "BoardCertifications" with
       | some d => (d.getListD "board_certifications" []).isEmpty
       | none => false) then
    false
  else if c.criminal_record &&
      (match dataLookup data "Disclosure" with
       | some d => d.getStrD "criminal_record" "" != "Clean"
       | none => false) then
    false
  else
    true

/-- Embedding of `_extract_regulation_data`: copy the fields named by the
regulation that are present in `provider_data`, then add the `"verification"`
key when `verification_details` is truthy (non-empty). -/
def extractRegulationData (reg : Regulation) (providerData : DataMap)
    (verification : SectionData) : DataMap :=
  reg.data_fields.filterMap (fun f => (dataLookup providerData f).map (fun v => (f, v)))
    ++ (if verification.entries.isEmpty then [] else [("verification", verification)])

/-! ## Result models (`models/credentialing_result.py`) -/

inductive ComplianceStatus where
  | COMPLIANT
  | NON_COMPLIANT
  | PENDING
  | FAILED
deriving DecidableEq

/-- The `.value` of the `ComplianceStatus` string enum. -/
def ComplianceStatus.value : ComplianceStatus → String
  | .COMPLIANT => "COMPLIANT"
  | .NON_COMPLIANT => "NON_COMPLIANT"
  | .PENDING => "PENDING"
  | .FAILED => "FAILED"

structure HardRegulationResult where
  regulation_id : String
  regulation_name : String
  passed : Bool
  details : DataMap
  failure_reason : Option String
deriving DecidableEq

structure SoftRegulationResult where
  regulation_id : String
  regulation_name : String
  score : ℤ
  max_score : ℤ := 5
  weight : ℚ
  weighted_score : ℚ
  details : DataMap
deriving DecidableEq

/-! ## Response parsing and the hard-regulation phase -/

/-- Embedding of `_parse_hard_regulation_response`: lower-case and strip the
response, look for the literal tokens, fall back to
`_validate_hard_regulation(regulation, {})` (note: an empty dict, not the
regulation's extracted data). -/
def parse_hard_regulation_response (response_content : String) (reg : Regulation) : Bool :=
  let lower := pyLowerStrip response_content
  if containsSub "pass".data lower && !containsSub "fail".data lower then
    true
  else if containsSub "fail".data lower then
    false
  else
    validateHardRegulation reg.validation_criteria []

/-- One result of the batch (LLM) path of `_check_hard_regulations`:
`passed` comes from parsing the i-th response for the i-th regulation. -/
def hardRegLLMResult (providerData : DataMap) (verification : SectionData)
    (reg : Regulation) (responseContent : String) : HardRegulationResult :=
  let relevant := extractRegulationData reg providerData verification
  let passed := parse_hard_regulation_response responseContent reg
  { regulation_id := reg.id
    regulation_name := reg.name
    passed := passed
    details := relevant
    failure_reason :=
      if passed then none else some ("Failed to meet " ++ reg.name ++ " requirements") }

/-- One result of the sequential fallback path of `_check_hard_regulations`:
`passed` is the deterministic rule outcome on the regulation's extracted data. -/
def hardRegFallbackResult (providerData : DataMap) (verification : SectionData)
    (reg : Regulation) : HardRegulationResult :=
  let relevant := extractRegulationData reg providerData verification
  let passed := validateHardRegulation reg.validation_criteria relevant
  { regulation_id := reg.id
    regulation_name := reg.name
    passed := passed
    details := relevant
    failure_reason :=
      if passed then none else some ("Failed to meet " ++ reg.name ++ " requirements") }

/-- Embedding of `_check_hard_regulations`. The outcome of the awaited
`generate_batch_async` call is passed in as an `Except` (`Except.error e`
embeds the batch call raising `e`); the surrounding `try/except` is the
`match`. On success the i-th response is paired with `regulation_data[i]`
(lengths agree because the scheduler is length-preserving); on any exception
every regulation is re-evaluated sequentially with the deterministic rule.
The function is total: no exception escapes this phase. -/
def check_hard_regulations (batchOutcome : Except String (List String))
    (regs : List Regulation) (providerData : DataMap) (verification : SectionData) :
    List HardRegulationResult :=
  match batchOutcome with
  | Except.ok responses =>
      (responses.zip regs).map (fun rv => hardRegLLMResult providerData verification rv.2 rv.1)
  | Except.error _ =>
      regs.map (hardRegFallbackResult providerData verification)

/-! ## Aggregation (`_calculate_overall_score`, `_determine_compliance_status`) -/

/-- Python `round` on an exact rational: round half to even. -/
def pyRound (q : ℚ) : ℤ :=
  let f := ⌊q⌋
  if q - f < 1 / 2 then f
  else if 1 / 2 < q - f then f + 1
  else if f % 2 = 0 then f else f + 1

/-- Python `round(x, 2)`. -/
def pyRound2 (q : ℚ) : ℚ :=
  (pyRound (q * 100) : ℚ) / 100

/-- Embedding of `_calculate_overall_score`: default 1 on an empty list or a
zero total weight, otherwise the weighted mean of the stored `weighted_score`
fields, rounded and clamped to `[1, 5]`. -/
def calculate_overall_score (rs : List SoftRegulationResult) : ℤ :=
  if rs.isEmpty then 1
  else
    let total_weighted_score := (rs.map (fun r => r.weighted_score)).sum
    let total_weight := (rs.map (fun r => r.weight)).sum
    if total_weight = 0 then 1
    else max 1 (min 5 (pyRound (total_weighted_score / total_weight)))

/-- Embedding of `_determine_compliance_status`. -/
def determine_compliance_status (rs : List HardRegulationResult) : ComplianceStatus :=
  if rs.isEmpty then ComplianceStatus.FAILED
  else if rs.all (fun r => r.passed) then ComplianceStatus.COMPLIANT
  else ComplianceStatus.NON_COMPLIANT

/-! ## The credentialing result (`models/credentialing_result.py`) -/

/-- Embedding of the `CredentialingResult` pydantic model. The timestamp is
kept as its serialized form, and the free-form payload fields
(`mapped_data`, `verification_details`, `llm_usage`) are elided: no claim
reads them. Dicts are association lists. -/
structure CredentialingResult where
  provider_id : String
  timestamp : String := ""
  score : ℤ
  compliance_status : ComplianceStatus
  hard_regulations : List (String × Bool)
  soft_regulations : List (String × ℤ)
  hard_regulation_results : List HardRegulationResult
  soft_regulation_results : List SoftRegulationResult
  processing_time : ℚ
  errors : List String := []
  warnings : List String := []
deriving DecidableEq

/-- Embedding of `CredentialingResult.is_compliant`:
`all(self.hard_regulations.values())`. -/
def CredentialingResult.is_compliant (r : CredentialingResult) : Bool :=
  (r.hard_regulations.map (fun e => e.2)).all (fun b => b)

/-- Embedding of `CredentialingResult.get_overall_score`. -/
def CredentialingResult.get_overall_score (r : CredentialingResult) : ℚ :=
  if r.soft_regulation_results.isEmpty then 0
  else
    let total_weighted_score := (r.soft_regulation_results.map (fun s => s.weighted_score)).sum
    let total_weight := (r.soft_regulation_results.map (fun s => s.weight)).sum
    if total_weight = 0 then 0
    else pyRound2 (total_weighted_score / total_weight)

/-- The dictionary produced by `CredentialingResult.to_dict`, with one field
per key of the Python dict (payload fields elided as in
`CredentialingResult`). -/
structure ResultDict where
  provider_id : String
  timestamp : String
  score : ℤ
  compliance_status : String
  hard_regulations : List (String × Bool)
  soft_regulations : List (String × ℤ)
  overall_score : ℚ
  is_compliant : Bool
  processing_time : ℚ
  errors : List String
  warnings : List String
deriving DecidableEq

/-- Embedding of `CredentialingResult.to_dict`. -/
def CredentialingResult.to_dict (r : CredentialingResult) : ResultDict :=
  { provider_id := r.provider_id
    timestamp := r.timestamp
    score := r.score
    compliance_status := r.compliance_status.value
    hard_regulations := r.hard_regulations
    soft_regulations := r.soft_regulations
    overall_score := r.get_overall_score
    is_compliant := r.is_compliant
    processing_time := r.processing_time
    errors := r.errors
    warnings := r.warnings }

/-! ## The orchestrator boundary (`credential_provider`) -/

/-- The values computed by a successful run of the `try` body of
`credential_provider` (steps 0-6), from which the success result is built. -/
structure PipelineSuccess where
  score : ℤ
  compliance_status : ComplianceStatus
  hard_regulations : List (String × Bool)
  soft_regulations : List (String × ℤ)
  hard_regulation_results : List HardRegulationResult
  soft_regulation_results : List SoftRegulationResult
deriving DecidableEq

/-- The `try` body of `credential_provider`: the provider lookup raises
`ValueError(f"Provider {provider_id} not found")` on an unknown id; the rest
of the pipeline is abstracted as `rest`, an arbitrary computation that may
raise any exception (`Except.error`) anywhere. -/
def pipelineBody (provider_id : String) (provider : Option DataMap)
    (rest : DataMap → Except String PipelineSuccess) : Except String PipelineSuccess :=
  match provider with
  | none => Except.error ("Provider " ++ provider_id ++ " not found")
  | some p => rest p

/-- Embedding of `credential_provider`: run the `try` body; on success return
the assembled result, on any exception return the FAILED error result with
the exception message in `errors`. The function is total, so no exception
propagates past this boundary. -/
def credential_provider (provider_id : String) (processing_time : ℚ)
    (provider : Option DataMap) (rest : DataMap → Except String PipelineSuccess) :
    CredentialingResult :=
  match pipelineBody provider_id provider rest with
  | Except.ok s =>
      { provider_id := provider_id
        score := s.score
        compliance_status := s.compliance_status
        hard_regulations := s.hard_regulations
        soft_regulations := s.soft_regulations
        hard_regulation_results := s.hard_regulation_results
        soft_regulation_results := s.soft_regulation_results
        processing_time := processing_time }
  | Except.error e =>
      { provider_id := provider_id
        score := 1
        compliance_status := ComplianceStatus.FAILED
        hard_regulations := []
        soft_regulations := []
        hard_regulation_results := []
        soft_regulation_results := []
        processing_time := processing_time
        errors := [e] }

/-! ## The batch scheduler (`LLMProvider.generate_batch_async` and the
Bedrock override) -/

/-- Reassemble keyed completions into key order `0, 1, ..., n-1`. This is both
the slot-assignment step inside `asyncio.gather` (results are placed in the
slot of the launching task, however the tasks complete) and the
`response_map = {uid: resp}` / `for uid in prompt_uids` reconstruction in
`BedrockLLMProvider.generate_batch_async` (keys are distinct, so first match
and dict lookup agree). -/
def reindexByKey (n : Nat) (completions : List (Nat × α)) : List α :=
  (List.range n).filterMap (fun i => (completions.find? (fun c => c.1 == i)).map (fun c => c.2))

/-- The tasks of one gather call, tagged by launch index. -/
def taskEnum (tasks : List α) : List (Nat × α) :=
  (List.range tasks.length).filterMap (fun j => tasks[j]?.map (fun v => (j, v)))

/-- Model of `asyncio.gather` over pure tasks: the tasks complete in the order
`sched` (a permutation of the launch indices chosen by the event loop), and
the results are returned in launch order — the documented `gather` contract. -/
def gather (tasks : List α) (sched : List Nat) : List α :=
  reindexByKey tasks.length (sched.filterMap (fun j => tasks[j]?.map (fun v => (j, v))))

/-- Contiguous chunks of 50, as produced by
`for i in range(0, len(prompts), 50): prompts[i : i + 50]`. -/
def waveChunks (l : List α) : List (List α) :=
  match l with
  | [] => []
  | a :: t => ((a :: t).take 50) :: waveChunks ((a :: t).drop 50)
termination_by l.length
decreasing_by
  simp only [List.length_drop, List.length_cons]
  omega

/-- The groups of prompts that `LLMProvider.generate_batch_async` hands to a
single `asyncio.gather` call: everything at once when `len(prompts) <= 50`,
otherwise waves of 50. Each group is one burst of concurrently in-flight
calls; bursts run strictly sequentially. -/
def baseBursts (prompts : List String) : List (List String) :=
  if prompts.length ≤ 50 then [prompts] else waveChunks prompts

/-- The single group that `BedrockLLMProvider.generate_batch_async` hands to
its one `asyncio.gather` call: all prompts at once (the override does no wave
partitioning). -/
def bedrockBursts (prompts : List String) : List (List String) :=
  [prompts]

/-- Run the bursts strictly sequentially (burst `k+1` starts only after burst
`k`'s gather has returned), concatenating results in burst order; `scheds k`
is the completion order the event loop happens to choose for burst `k`. -/
def burstsRun (gen : String → α) (scheds : Nat → List Nat) : Nat → List (List String) → List α
  | _, [] => []
  | k, w :: ws => gather (w.map gen) (scheds k) ++ burstsRun gen scheds (k + 1) ws

/-- Embedding of the default `LLMProvider.generate_batch_async`: the adapter's
`generate_async` is the pure `gen`; the prompts are processed in bursts via
`asyncio.gather`, with results extended in wave order. -/
def generate_batch_async (gen : String → α) (scheds : Nat → List Nat)
    (prompts : List String) : List α :=
  burstsRun gen scheds 0 (baseBursts prompts)

/-- Embedding of `BedrockLLMProvider.generate_batch_async`: each prompt `i`
gets a fresh unique correlation token (`uuid.uuid4()`, modelled as the
distinct token `i`); each task returns `(uid, response)`; all tasks are
gathered at once; a uid-to-response map is built from the completed tasks and
the output is reconstructed by walking the original uid order. -/
def bedrock_generate_batch_async (gen : String → α) (sched : List Nat)
    (prompts : List String) : List α :=
  reindexByKey prompts.length (gather ((prompts.map gen).enum) sched)

/-- Peak number of concurrently in-flight calls over a burst sequence: the
largest burst size. -/
def peakInFlight (bursts : List (List α)) : Nat :=
  (bursts.map List.length).foldr max 0

/-! ## Helper lemmas -/

/-- A pair belongs to the task enumeration exactly when it is a task at its
own launch index. -/
theorem mem_taskEnum {l : List α} {c : Nat × α} :
    c ∈ taskEnum l ↔ l[c.1]? = some c.2 := by
  unfold taskEnum
  simp only [List.mem_filterMap, List.mem_range, Option.map_eq_some']
  constructor
  · rintro ⟨j, _, v, hv, rfl⟩
    exact hv
  · intro h
    have hlt : c.1 < l.length := by
      by_contra hge
      rw [List.getElem?_eq_none (by omega)] at h
      exact Option.noConfusion h
    exact ⟨c.1, hlt, c.2, h, rfl⟩

/-- In any completion order of the tasks, the first (and only) completion
with key `i` is task `i` itself. -/
theorem find?_taskEnum_perm {completions : List (Nat × α)} {l : List α}
    (h : completions.Perm (taskEnum l)) {i : Nat} {v : α} (hv : l[i]? = some v) :
    completions.find? (fun c => c.1 == i) = some (i, v) := by
  have hmem : (i, v) ∈ completions := h.mem_iff.mpr (mem_taskEnum.mpr hv)
  have hsome : (completions.find? (fun c => c.1 == i)).isSome := by
    rw [List.find?_isSome]
    exact ⟨(i, v), hmem, by simp⟩
  obtain ⟨c, hc⟩ := Option.isSome_iff_exists.mp hsome
  obtain ⟨c1, c2⟩ := c
  have hkey : c1 = i := by
    have := List.find?_some hc
    simpa using this
  subst hkey
  have hcmem : (c1, c2) ∈ taskEnum l := h.mem_iff.mp (List.mem_of_find?_eq_some hc)
  have hval : l[c1]? = some c2 := mem_taskEnum.mp hcmem
  rw [hv] at hval
  obtain rfl : v = c2 := Option.some.inj hval
  exact hc

/-- Collecting every index lookup over the full range rebuilds the list. -/
theorem filterMap_getElem_range (l : List α) :
    (List.range l.length).filterMap (fun i => l[i]?) = l := by
  induction l with
  | nil => simp
  | cons a t ih =>
    rw [List.length_cons, List.range_succ_eq_map, List.filterMap_cons]
    simp only [List.getElem?_cons_zero, List.filterMap_map]
    congr 1
    calc ((List.range t.length).filterMap fun i => (a :: t)[i + 1]?)
        = (List.range t.length).filterMap (fun i => t[i]?) := by
          apply List.filterMap_congr
          intro i _
          simp
      _ = t := ih

/-- Reassembling any completion order of the tasks by key recovers the task
list in launch order. -/
theorem reindexByKey_of_perm {l : List α} {completions : List (Nat × α)}
    (h : completions.Perm (taskEnum l)) :
    reindexByKey l.length completions = l := by
  have hcongr : (List.range l.length).filterMap
        (fun i => (completions.find? (fun c => c.1 == i)).map (fun c => c.2))
      = (List.range l.length).filterMap (fun i => l[i]?) := by
    apply List.filterMap_congr
    intro i hi
    rw [List.mem_range] at hi
    have hv : l[i]? = some l[i] := List.getElem?_eq_getElem hi
    rw [find?_taskEnum_perm h hv]
    simp [hv]
  unfold reindexByKey
  rw [hcongr]
  exact filterMap_getElem_range l

/-- The ordering guarantee of `gather`: whatever completion order the event
loop chooses, the results come back in launch order. -/
theorem gather_of_perm {tasks : List α} {sched : List Nat}
    (h : sched.Perm (List.range tasks.length)) :
    gather tasks sched = tasks := by
  unfold gather
  exact reindexByKey_of_perm (h.filterMap _)

/-- Enumerating a list agrees with the launch-index task enumeration. -/
theorem taskEnum_cons (a : α) (t : List α) :
    taskEnum (a :: t) = (0, a) :: (taskEnum t).map (fun c => (c.1 + 1, c.2)) := by
  unfold taskEnum
  rw [List.length_cons, List.range_succ_eq_map, List.filterMap_cons]
  simp only [List.getElem?_cons_zero, Option.map_some']
  congr 1
  rw [List.filterMap_map, List.map_filterMap]
  apply List.filterMap_congr
  intro j _
  simp only [Function.comp_apply, List.getElem?_cons_succ, Option.map_map]
  cases t[j]? <;> rfl

/-- Enumerating from an offset is the task enumeration with shifted keys. -/
theorem enumFrom_eq_taskEnum_shift (l : List α) :
    ∀ n, List.enumFrom n l = (taskEnum l).map (fun c => (c.1 + n, c.2)) := by
  induction l with
  | nil => intro n; simp [taskEnum]
  | cons a t ih =>
    intro n
    rw [List.enumFrom_cons, taskEnum_cons, List.map_cons]
    simp only [Nat.zero_add]
    congr 1
    rw [ih (n + 1), List.map_map]
    apply List.map_congr_left
    intro c _
    cases c with
    | mk c1 c2 =>
      simp only [Function.comp_apply]
      congr 1
      omega

/-- The task list built by enumerating responses with fresh tokens is the
task enumeration. -/
theorem enum_eq_taskEnum (l : List α) : l.enum = taskEnum l := by
  calc l.enum = List.enumFrom 0 l := rfl
    _ = (taskEnum l).map (fun c => (c.1 + 0, c.2)) := enumFrom_eq_taskEnum_shift l 0
    _ = taskEnum l := by
      rw [show (fun c : Nat × α => (c.1 + 0, c.2)) = id from ?_, List.map_id]
      funext c
      cases c
      rfl


/-- Running the bursts in order under valid per-burst completion schedules
answers every prompt in place. -/
theorem burstsRun_eq (gen : String → α) (scheds : Nat → List Nat) :
    ∀ (ws : List (List String)) (k : Nat),
      (∀ j, (scheds (k + j)).Perm (List.range ((ws.getD j []).length))) →
      burstsRun gen scheds k ws = ws.flatten.map gen := by
  intro ws
  induction ws with
  | nil => intro k _; simp [burstsRun]
  | cons w ws ih =>
    intro k h
    have h0 : (scheds k).Perm (List.range (w.map gen).length) := by
      have := h 0
      simpa using this
    have hrest : ∀ j, (scheds ((k + 1) + j)).Perm (List.range ((ws.getD j []).length)) := by
      intro j
      have := h (j + 1)
      simpa [Nat.add_comm, Nat.add_assoc, Nat.add_left_comm] using this
    rw [burstsRun, gather_of_perm h0, ih (k + 1) hrest]
    simp

/-- The 50-waves are a partition of the prompt list. -/
theorem waveChunks_join (l : List α) : (waveChunks l).flatten = l := by
  induction l using waveChunks.induct with
  | case1 => simp [waveChunks]
  | case2 a t ih =>
    rw [waveChunks]
    simp only [List.flatten_cons, ih, List.take_append_drop]

/-- Every 50-wave has at most 50 prompts. -/
theorem waveChunks_length_le (l : List α) : ∀ w ∈ waveChunks l, w.length ≤ 50 := by
  induction l using waveChunks.induct with
  | case1 => intro w hw; simp [waveChunks] at hw
  | case2 a t ih =>
    intro w hw
    rw [waveChunks] at hw
    rcases List.mem_cons.mp hw with rfl | hmem
    · simp
    · exact ih w hmem

/-- The default scheduler's bursts are a partition of the prompt list. -/
theorem baseBursts_join (prompts : List String) : (baseBursts prompts).flatten = prompts := by
  unfold baseBursts
  split
  · simp
  · exact waveChunks_join prompts

/-- Every burst of the default scheduler holds at most 50 prompts. -/
theorem baseBursts_length_le (prompts : List String) :
    ∀ w ∈ baseBursts prompts, w.length ≤ 50 := by
  unfold baseBursts
  split
  · intro w hw
    rw [List.mem_singleton] at hw
    subst hw
    omega
  · exact waveChunks_length_le prompts

/-- A fold of `max` over a list of bounded values is bounded. -/
theorem foldr_max_le {m : Nat} {l : List Nat} (h : ∀ n ∈ l, n ≤ m) :
    l.foldr max 0 ≤ m := by
  induction l with
  | nil => simp
  | cons a t ih =>
    simp only [List.foldr_cons, Nat.max_le]
    exact ⟨h a (List.mem_cons_self a t), ih (fun n hn => h n (List.mem_cons_of_mem a hn))⟩

/-! ## Claim theorems -/

/-- C1: for every list of prompts, `generate_batch_async` returns a list of
the same length whose i-th response answers the i-th prompt, regardless of
the completion order of the concurrent calls (the per-burst schedules range
over all permutations of the launch indices), both for the default
implementation and for the Bedrock UID-correlation override. -/
theorem batch_order_preserved {α : Type} (gen : String → α) (scheds : Nat → List Nat)
    (sched : List Nat) (prompts : List String)
    (hbase : ∀ j, (scheds j).Perm (List.range (((baseBursts prompts).getD j []).length)))
    (hbed : sched.Perm (List.range prompts.length)) :
    generate_batch_async gen scheds prompts = prompts.map gen
    ∧ bedrock_generate_batch_async gen sched prompts = prompts.map gen
    ∧ (generate_batch_async gen scheds prompts).length = prompts.length
    ∧ (bedrock_generate_batch_async gen sched prompts).length = prompts.length := by
  have hb : generate_batch_async gen scheds prompts = prompts.map gen := by
    unfold generate_batch_async
    rw [burstsRun_eq gen scheds (baseBursts prompts) 0 (by simpa using hbase)]
    rw [baseBursts_join]
  have hd : bedrock_generate_batch_async gen sched prompts = prompts.map gen := by
    unfold bedrock_generate_batch_async
    have hlen : (prompts.map gen).enum.length = prompts.length := by
      rw [List.enum_length, List.length_map]
    rw [gather_of_perm (by rw [hlen]; exact hbed)]
    rw [enum_eq_taskEnum]
    have := @reindexByKey_of_perm _ (prompts.map gen) (taskEnum (prompts.map gen))
      (List.Perm.refl _)
    rw [List.length_map] at this
    exact this
  exact ⟨hb, hd, by rw [hb, List.length_map], by rw [hd, List.length_map]⟩

/-- Witness for C1 at a concrete batch: three prompts, completed out of
order in both implementations, still answered in input order. -/
theorem batch_order_preserved_witness :
    generate_batch_async (fun s => s ++ "!") (fun j => if j = 0 then [2, 0, 1] else [])
        ["a", "b", "c"] = ["a!", "b!", "c!"]
    ∧ bedrock_generate_batch_async (fun s => s ++ "!") [1, 2, 0] ["a", "b", "c"]
        = ["a!", "b!", "c!"] := by
  have h := batch_order_preserved (fun s => s ++ "!")
      (fun j => if j = 0 then [2, 0, 1] else []) [1, 2, 0] ["a", "b", "c"] ?hb ?hd
  case hb =>
    intro j
    cases j with
    | zero => decide
    | succ n =>
      have h2 : (baseBursts ["a", "b", "c"]).getD (n + 1) [] = [] := by
        have hb : baseBursts ["a", "b", "c"] = [["a", "b", "c"]] := by decide
        rw [hb]
        rfl
      show (if n + 1 = 0 then [2, 0, 1] else ([] : List Nat)).Perm
        (List.range ((baseBursts ["a", "b", "c"]).getD (n + 1) []).length)
      rw [h2, if_neg (Nat.succ_ne_zero n)]
      exact List.Perm.refl _
  case hd => decide
  exact ⟨h.1, h.2.1⟩

/-- C2 counterexample: the claim asserts a concurrency cap of 50 for every
adapter, but the Bedrock override hands all 51 prompts of a 51-prompt batch
to a single `asyncio.gather` call, so 51 calls are in flight at once. -/
theorem wave_cap_counterexample :
    peakInFlight (bedrockBursts (List.replicate 51 "p")) = 51
    ∧ ¬ peakInFlight (bedrockBursts (List.replicate 51 "p")) ≤ 50
    ∧ 50 < (List.replicate 51 "p").length := by
  decide

/-- C2 amended: the default `LLMProvider.generate_batch_async` partitions any
batch into contiguous bursts of at most 50 prompts, processed strictly
sequentially (`burstsRun`), so its peak number of concurrently in-flight
calls is at most 50; the Bedrock override instead launches everything in one
burst, so its peak equals the batch size. -/
theorem wave_partition_bound (prompts : List String) :
    (baseBursts prompts).flatten = prompts
    ∧ ((baseBursts prompts).map List.length).all (fun n => n ≤ 50) = true
    ∧ peakInFlight (baseBursts prompts) ≤ 50
    ∧ peakInFlight (bedrockBursts prompts) = prompts.length := by
  refine ⟨baseBursts_join prompts, ?_, ?_, ?_⟩
  · rw [List.all_eq_true]
    intro n hn
    rw [List.mem_map] at hn
    obtain ⟨w, hw, rfl⟩ := hn
    simpa using baseBursts_length_le prompts w hw
  · apply foldr_max_le
    intro n hn
    rw [List.mem_map] at hn
    obtain ⟨w, hw, rfl⟩ := hn
    exact baseBursts_length_le prompts w hw
  · simp [peakInFlight, bedrockBursts]

/-- C3: if the batch LLM call of the hard-regulation phase raises any
exception, `_check_hard_regulations` catches it and returns exactly one
`HardRegulationResult` per configured hard regulation, in order, each decided
by the deterministic rule on that regulation's extracted data; the embedded
phase is a total function, so the exception is never re-raised. -/
theorem hard_batch_fallback (e : String) (regs : List Regulation)
    (providerData : DataMap) (verification : SectionData) :
    (check_hard_regulations (Except.error e) regs providerData verification).length
        = regs.length
    ∧ (check_hard_regulations (Except.error e) regs providerData verification).map
          (fun r => (r.regulation_id, r.passed))
        = regs.map (fun reg => (reg.id,
            validateHardRegulation reg.validation_criteria
              (extractRegulationData reg providerData verification))) := by
  constructor
  · simp [check_hard_regulations]
  · simp only [check_hard_regulations, List.map_map]
    apply List.map_congr_left
    intro reg _
    rfl

/-- C4: every exception raised anywhere inside the credentialing pipeline —
including the `ValueError` for an unknown provider id — is caught at the top
level of `credential_provider`, which returns normally with a FAILED result
carrying the exception message in its errors list; `credential_provider` is a
total function, so nothing propagates past the orchestrator boundary. -/
theorem credential_provider_catches (provider_id : String) (processing_time : ℚ)
    (provider : Option DataMap) (rest : DataMap → Except String PipelineSuccess)
    (e : String)
    (h : pipelineBody provider_id provider rest = Except.error e) :
    ((credential_provider provider_id processing_time provider rest).compliance_status
          = ComplianceStatus.FAILED
      ∧ (credential_provider provider_id processing_time provider rest).errors = [e])
    ∧ ((credential_provider provider_id processing_time none rest).compliance_status
          = ComplianceStatus.FAILED
      ∧ (credential_provider provider_id processing_time none rest).errors
          = ["Provider " ++ provider_id ++ " not found"]) := by
  constructor
  · unfold credential_provider
    rw [h]
    exact ⟨rfl, rfl⟩
  · unfold credential_provider pipelineBody
    exact ⟨rfl, rfl⟩

/-- Witness for C4: an unknown provider id produces a normally returned
FAILED result with the lookup error recorded. -/
theorem credential_provider_catches_witness :
    (credential_provider "P001" 0 none (fun _ => Except.error "boom")).compliance_status
        = ComplianceStatus.FAILED
    ∧ (credential_provider "P001" 0 none (fun _ => Except.error "boom")).errors
        = ["Provider P001 not found"] := by
  have h := credential_provider_catches "P001" 0 none (fun _ => Except.error "boom")
      "Provider P001 not found" rfl
  exact ⟨h.1.1, h.1.2⟩

/-- C5: hard-regulation response parsing scans the lower-cased stripped text;
"fail" present forces `passed = False` even if "pass" is present, "pass"
without "fail" gives `passed = True`, neither token falls back to the
deterministic rule check (invoked with an empty data dict); in particular the
tie-break sentence parses to `passed = False` for every regulation. -/
theorem parse_hard_priority (content : String) (reg : Regulation) :
    (containsSub "fail".data (pyLowerStrip content) = true →
      parse_hard_regulation_response content reg = false)
    ∧ (containsSub "pass".data (pyLowerStrip content) = true →
        containsSub "fail".data (pyLowerStrip content) = false →
      parse_hard_regulation_response content reg = true)
    ∧ (containsSub "pass".data (pyLowerStrip content) = false →
        containsSub "fail".data (pyLowerStrip content) = false →
      parse_hard_regulation_response content reg
        = validateHardRegulation reg.validation_criteria [])
    ∧ parse_hard_regulation_response
        "The provider clearly does not FAIL any check. PASS." reg = false := by
  refine ⟨?_, ?_, ?_, ?_⟩
  · intro hf
    simp [parse_hard_regulation_response, hf]
  · intro hp hf
    simp [parse_hard_regulation_response, hp, hf]
  · intro hp hf
    simp [parse_hard_regulation_response, hp, hf]
  · have hf : containsSub "fail".data
        (pyLowerStrip "The provider clearly does not FAIL any check. PASS.") = true := by
      decide
    simp [parse_hard_regulation_response, hf]

/-- Witness for C5: a response containing "fail" parses to failure. -/
theorem parse_hard_priority_witness :
    parse_hard_regulation_response "Result: FAIL."
      ⟨"HR001", "Medical License Verification", [], ⟨true, true, true, true, true⟩⟩
      = false := by
  exact (parse_hard_priority "Result: FAIL." _).1 (by decide)

/-- C6: the compliance status is COMPLIANT iff the hard-regulation result
list is non-empty and every result passed, NON_COMPLIANT iff it is non-empty
and some result did not pass, and FAILED exactly when it is empty. -/
theorem compliance_status_characterization (rs : List HardRegulationResult) :
    (determine_compliance_status rs = ComplianceStatus.COMPLIANT ↔
      rs ≠ [] ∧ rs.all (fun r => r.passed) = true)
    ∧ (determine_compliance_status rs = ComplianceStatus.NON_COMPLIANT ↔
      rs ≠ [] ∧ rs.all (fun r => r.passed) = false)
    ∧ (determine_compliance_status rs = ComplianceStatus.FAILED ↔ rs = []) := by
  unfold determine_compliance_status
  rcases rs with _ | ⟨r, rs⟩
  · simp
  · simp only [List.isEmpty_cons, Bool.false_eq_true, if_false]
    split <;> simp_all

/-- C7: under the invariant maintained by both orchestrator paths
(`weighted_score = score * weight`), the overall score is the weighted mean
of the scores, banker-rounded and clamped to `[1, 5]`, and defaults to 1 when
there are no soft-regulation results or the total weight is zero. -/
theorem overall_score_formula (rs : List SoftRegulationResult)
    (h : ∀ r ∈ rs, r.weighted_score = (r.score : ℚ) * r.weight) :
    (rs = [] ∨ (rs.map (fun r => r.weight)).sum = 0 → calculate_overall_score rs = 1)
    ∧ (rs ≠ [] → (rs.map (fun r => r.weight)).sum ≠ 0 →
        calculate_overall_score rs
          = max 1 (min 5 (pyRound ((rs.map (fun r => (r.score : ℚ) * r.weight)).sum
              / (rs.map (fun r => r.weight)).sum)))) := by
  constructor
  · rintro (rfl | hz)
    · rfl
    · simp [calculate_overall_score, hz]
  · intro hne hz
    have hmap : rs.map (fun r => r.weighted_score)
        = rs.map (fun r => (r.score : ℚ) * r.weight) := List.map_congr_left h
    simp only [calculate_overall_score, hmap]
    rw [if_neg (by simpa [List.isEmpty_iff] using hne), if_neg hz]

/-- Witness for C7, the end-to-end example of the spec: weights 0.4/0.3/0.3
with scores 5/4/3 give round(4.1) = 4. -/
theorem overall_score_formula_witness :
    calculate_overall_score
      [ { regulation_id := "SR001", regulation_name := "Years of Experience",
          score := 5, weight := 4 / 10, weighted_score := 2, details := [] },
        { regulation_id := "SR002", regulation_name := "Continuing Education",
          score := 4, weight := 3 / 10, weighted_score := 12 / 10, details := [] },
        { regulation_id := "SR003", regulation_name := "Quality Metrics",
          score := 3, weight := 3 / 10, weighted_score := 9 / 10, details := [] } ] = 4 := by
  have h0 : ∀ r ∈
      [ ({ regulation_id := "SR001", regulation_name := "Years of Experience",
           score := 5, weight := 4 / 10, weighted_score := 2, details := [] } :
            SoftRegulationResult),
        { regulation_id := "SR002", regulation_name := "Continuing Education",
          score := 4, weight := 3 / 10, weighted_score := 12 / 10, details := [] },
        { regulation_id := "SR003", regulation_name := "Quality Metrics",
          score := 3, weight := 3 / 10, weighted_score := 9 / 10, details := [] } ],
      r.weighted_score = (r.score : ℚ) * r.weight := by
    intro r hr
    fin_cases hr <;> norm_num
  rw [(overall_score_formula _ h0).2 (by simp) (by norm_num)]
  have hfl : ⌊(41 : ℚ) / 10⌋ = 4 := by
    rw [Int.floor_eq_iff]
    norm_num
  norm_num [pyRound, hfl]

/-- C8 counterexample: the pricing lookup for "gpt-4-turbo-preview-custom"
does not resolve to the gpt-4-turbo rate pair (0.01, 0.03): the substring
loop walks the dict in insertion order and the key "gpt-4" matches first. -/
theorem pricing_lookup_counterexample :
    get_model_pricing "gpt-4-turbo-preview-custom" ≠ (1 / 100, 3 / 100) := by
  have heq : get_model_pricing "gpt-4-turbo-preview-custom" = (3 / 100, 6 / 100) := rfl
  rw [heq]
  intro h
  have h1 : (3 : ℚ) / 100 = 1 / 100 := congrArg Prod.fst h
  norm_num at h1

/-- C8 amended: the pricing lookup for "gpt-4-turbo-preview-custom" resolves
via the substring match against the table keys (in dict insertion order,
"gpt-4" matching before "gpt-4-turbo") to the gpt-4 rate pair (0.03, 0.06),
not to the default rate pair. -/
theorem pricing_lookup_resolution :
    get_model_pricing "gpt-4-turbo-preview-custom" = (3 / 100, 6 / 100)
    ∧ get_model_pricing "gpt-4-turbo-preview-custom" ≠ (3 / 1000, 15 / 1000) := by
  refine ⟨rfl, ?_⟩
  intro h
  have h2 : ((3 : ℚ) / 100, (6 : ℚ) / 100) = ((3 : ℚ) / 1000, (15 : ℚ) / 1000) :=
    (show get_model_pricing "gpt-4-turbo-preview-custom" = (3 / 100, 6 / 100) from
      rfl).symm.trans h
  have h3 : (3 : ℚ) / 100 = 3 / 1000 := congrArg Prod.fst h2
  norm_num at h3

/-- C9: the deterministic hard-regulation validator accepts every regulation
on an empty data dict (each criterion branch is skipped when its data key is
absent), so any hard-regulation response containing neither "pass" nor
"fail" parses to `passed = True` for every regulation, because the per-item
fallback calls the validator with `{}` instead of the extracted data. -/
theorem empty_data_validator_default (c : ValidationCriteria) (content : String)
    (reg : Regulation)
    (hp : containsSub "pass".data (pyLowerStrip content) = false)
    (hf : containsSub "fail".data (pyLowerStrip content) = false) :
    validateHardRegulation c [] = true
    ∧ parse_hard_regulation_response content reg = true := by
  have hv : ∀ c0 : ValidationCriteria, validateHardRegulation c0 [] = true := by
    intro c0
    simp [validateHardRegulation, dataLookup]
  refine ⟨hv c, ?_⟩
  simp [parse_hard_regulation_response, hp, hf, hv]

/-- Witness for C9: a token-free response parses to pass for a regulation
with every criterion configured. -/
theorem empty_data_validator_default_witness :
    validateHardRegulation ⟨true, true, true, true, true⟩ [] = true
    ∧ parse_hard_regulation_response "no verdict tokens here"
        ⟨"HR002", "Background Check", ["Disclosure"], ⟨false, true, false, true, true⟩⟩
        = true := by
  exact empty_data_validator_default ⟨true, true, true, true, true⟩
    "no verdict tokens here" _ (by decide) (by decide)

/-- C10: `is_compliant` universally quantifies over the `hard_regulations`
dict, so it returns True on an empty dict, and a result built from an empty
hard-regulation set (whose status, per `_determine_compliance_status`, is
FAILED) serializes through `to_dict` with `is_compliant = true` next to
`compliance_status = "FAILED"`. -/
theorem is_compliant_empty_map (r : CredentialingResult)
    (h : r.hard_regulations = []) :
    r.is_compliant = true
    ∧ (r.to_dict).is_compliant = true
    ∧ determine_compliance_status [] = ComplianceStatus.FAILED
    ∧ (r.compliance_status = ComplianceStatus.FAILED →
        (r.to_dict).compliance_status = "FAILED") := by
  have h1 : r.is_compliant = true := by
    simp [CredentialingResult.is_compliant, h]
  refine ⟨h1, ?_, rfl, ?_⟩
  · simpa [CredentialingResult.to_dict] using h1
  · intro hs
    simp [CredentialingResult.to_dict, hs, ComplianceStatus.value]

/-- Witness for C10: a concrete FAILED result with an empty hard-regulation
map serializes with `is_compliant = true`. -/
theorem is_compliant_empty_map_witness :
    ({ provider_id := "P001", score := 1,
       compliance_status := ComplianceStatus.FAILED, hard_regulations := [],
       soft_regulations := [], hard_regulation_results := [],
       soft_regulation_results := [], processing_time := 0 } :
        CredentialingResult).is_compliant = true
    ∧ (({ provider_id := "P001", score := 1,
          compliance_status := ComplianceStatus.FAILED, hard_regulations := [],
          soft_regulations := [], hard_regulation_results := [],
          soft_regulation_results := [], processing_time := 0 } :
            CredentialingResult).to_dict).is_compliant = true
    ∧ (({ provider_id := "P001", score := 1,
          compliance_status := ComplianceStatus.FAILED, hard_regulations := [],
          soft_regulations := [], hard_regulation_results := [],
          soft_regulation_results := [], processing_time := 0 } :
            CredentialingResult).to_dict).compliance_status = "FAILED" := by
  have h := is_compliant_empty_map
    { provider_id := "P001", score := 1,
      compliance_status := ComplianceStatus.FAILED, hard_regulations := [],
      soft_regulations := [], hard_regulation_results := [],
      soft_regulation_results := [], processing_time := 0 } rfl
  exact ⟨h.1, h.2.1, h.2.2.2 rfl⟩
